import Mathlib

/-!
Shallow embedding of the NutriChat nutrition-calculation engine
(`logic.py` together with the validation vocabulary of `utils.py`).

Python floats are modelled by exact rationals (`ℚ`); every numeric literal of
the source is an exact decimal, so the rational model agrees with the float
computation on the concrete inputs evaluated below.  The Python builtin
`round` (round-half-to-even, returning `int`) is modelled by `pyRound`; the
Python method `str.lower` is modelled by `pyLower`, which lowercases the
basic latin letters — all vocabulary strings of the source are pure ASCII.
A raised `ValueError` is modelled by `Except.error` carrying a
`ValidationError` tag identifying which validation message was raised.
-/

/-- The Python builtin `round` on an exact rational: round half to even. -/
def pyRound (q : ℚ) : ℤ :=
  if Int.fract q < 1/2 then ⌊q⌋
  else if 1/2 < Int.fract q then ⌊q⌋ + 1
  else if ⌊q⌋ % 2 = 0 then ⌊q⌋ else ⌊q⌋ + 1

/-- The Python method `str.lower` restricted to basic latin letters (all
strings the program compares against are ASCII). -/
def pyLower (s : String) : String :=
  String.mk (s.data.map Char.toLower)

/-- utils.py: `ACTIVITY_LEVELS` — key/description pairs. -/
def ACTIVITY_LEVELS : List (String × String) :=
  [("sedentary", "Little or no exercise"),
   ("light", "Light exercise 1-3 days/week"),
   ("moderate", "Moderate exercise 3-5 days/week"),
   ("active", "Hard exercise 6-7 days/week"),
   ("very_active", "Very hard exercise and physical job or training twice per day")]

/-- utils.py: `GOALS` — key/description pairs. -/
def GOALS : List (String × String) :=
  [("weight_loss", "Lose weight"),
   ("maintenance", "Maintain weight"),
   ("muscle_gain", "Build muscle"),
   ("general_health", "Improve general health")]

/-- The keys of `ACTIVITY_LEVELS` (what `x in ACTIVITY_LEVELS` tests in Python). -/
def activityKeys : List String := ACTIVITY_LEVELS.map Prod.fst

/-- The keys of `GOALS` (what `x in GOALS` tests in Python). -/
def goalKeys : List String := GOALS.map Prod.fst

/-- logic.py: dataclass `NutritionProfile`. -/
structure NutritionProfile where
  weight_lbs : ℚ
  height_inches : ℚ
  age : ℤ
  sex : String
  activity_level : String
  bmr : ℚ
  tdee : ℚ
  target_calories : ℚ
  protein_grams : ℚ
  carbs_grams : ℚ
  fat_grams : ℚ
  water_oz : ℚ
deriving DecidableEq

/-- logic.py: `calculate_bmr` (Mifflin-St Jeor). -/
def calculate_bmr (weight_lbs height_inches : ℚ) (age : ℤ) (sex : String) : ℤ :=
  let weight_kg := weight_lbs * 0.453592
  let height_cm := height_inches * 2.54
  if pyLower sex = "male" then
    pyRound ((10 * weight_kg) + (6.25 * height_cm) - (5 * (age : ℚ)) + 5)
  else
    pyRound ((10 * weight_kg) + (6.25 * height_cm) - (5 * (age : ℚ)) - 161)

/-- logic.py: the `activity_multipliers` dict lookup of `calculate_tdee`,
with the `.get` default 1.2. -/
def activityMultiplier (activity_level : String) : ℚ :=
  let l := pyLower activity_level
  if l = "sedentary" then 1.2
  else if l = "light" then 1.375
  else if l = "moderate" then 1.55
  else if l = "active" then 1.725
  else if l = "very_active" then 1.9
  else 1.2

/-- logic.py: `calculate_tdee`. -/
def calculate_tdee (bmr : ℚ) (activity_level : String) : ℤ :=
  pyRound (bmr * activityMultiplier activity_level)

/-- logic.py: the `goal_adjustments` dict lookup of `calculate_target_calories`,
with the `.get` default 1.0. -/
def goalAdjustment (goal : String) : ℚ :=
  let g := pyLower goal
  if g = "lose_weight" then 0.85
  else if g = "maintain" then 1.0
  else if g = "gain_muscle" then 1.1
  else if g = "improve_endurance" then 1.05
  else 1.0

/-- logic.py: `calculate_target_calories`. -/
def calculate_target_calories (tdee : ℚ) (goal : String) : ℤ :=
  pyRound (tdee * goalAdjustment goal)

/-- logic.py: the `protein_multipliers` dict lookup of
`calculate_macronutrients`, with the `.get` default 1.8. -/
def proteinMultiplier (goal : String) : ℚ :=
  let g := pyLower goal
  if g = "lose_weight" then 2.2
  else if g = "maintain" then 1.8
  else if g = "gain_muscle" then 2.0
  else if g = "improve_endurance" then 1.6
  else 1.8

/-- logic.py: the `fat_percentages` dict lookup of `calculate_macronutrients`,
with the `.get` default 0.30. -/
def fatPercentage (goal : String) : ℚ :=
  let g := pyLower goal
  if g = "lose_weight" then 0.25
  else if g = "maintain" then 0.30
  else if g = "gain_muscle" then 0.25
  else if g = "improve_endurance" then 0.25
  else 0.30

/-- logic.py: `calculate_macronutrients`; returns
(protein_grams, carb_grams, fat_grams). -/
def calculate_macronutrients (target_calories : ℚ) (goal : String)
    (weight_lbs : ℚ) : ℤ × ℤ × ℤ :=
  let weight_kg := weight_lbs * 0.453592
  let protein_grams := pyRound (weight_kg * proteinMultiplier goal)
  let protein_calories := protein_grams * 4
  let fat_calories := target_calories * fatPercentage goal
  let fat_grams := pyRound (fat_calories / 9)
  let carb_calories := target_calories - protein_calories - fat_calories
  let carb_grams := pyRound (carb_calories / 4)
  (protein_grams, carb_grams, fat_grams)

/-- logic.py: the `base_multipliers` dict lookup of `calculate_water_needs`,
with the `.get` default 0.5. -/
def waterMultiplier (activity_level : String) : ℚ :=
  let l := pyLower activity_level
  if l = "sedentary" then 0.5
  else if l = "light" then 0.55
  else if l = "moderate" then 0.6
  else if l = "active" then 0.65
  else if l = "very_active" then 0.7
  else 0.5

/-- logic.py: `calculate_water_needs`. -/
def calculate_water_needs (weight_lbs : ℚ) (activity_level : String) : ℤ :=
  pyRound (weight_lbs * waterMultiplier activity_level)

/-- One tag per distinct `ValueError` message raised by
`calculate_nutrition_profile` (the spec calls these ValidationError). -/
inductive ValidationError where
  /-- Message: Weight, height, and age must be positive numbers. -/
  | nonPositiveInput : ValidationError
  /-- Message: Sex must be male or female. -/
  | invalidSex : ValidationError
  /-- Message: Activity level must be one of the five recognized keys. -/
  | invalidActivityLevel : ValidationError
  /-- Message: Goal must be one of the four canonical keys. -/
  | invalidGoal : ValidationError
deriving DecidableEq

/-- logic.py: `calculate_nutrition_profile` — validation in source order, then
the fixed computation pipeline. -/
def calculate_nutrition_profile (weight_lbs height_inches : ℚ) (age : ℤ)
    (sex activity_level goal : String) :
    Except ValidationError NutritionProfile :=
  if ¬(weight_lbs > 0 ∧ height_inches > 0 ∧ age > 0) then
    .error .nonPositiveInput
  else if ¬(pyLower sex ∈ ["male", "female"]) then
    .error .invalidSex
  else if ¬(pyLower activity_level ∈ activityKeys) then
    .error .invalidActivityLevel
  else if ¬(pyLower goal ∈ goalKeys) then
    .error .invalidGoal
  else
    let bmr := calculate_bmr weight_lbs height_inches age sex
    let tdee := calculate_tdee (bmr : ℚ) activity_level
    let target_calories := calculate_target_calories (tdee : ℚ) goal
    let macros := calculate_macronutrients (target_calories : ℚ) goal weight_lbs
    let water_oz := calculate_water_needs weight_lbs activity_level
    .ok
      { weight_lbs := weight_lbs
        height_inches := height_inches
        age := age
        sex := sex
        activity_level := activity_level
        bmr := (bmr : ℚ)
        tdee := (tdee : ℚ)
        target_calories := (target_calories : ℚ)
        protein_grams := (macros.1 : ℚ)
        carbs_grams := (macros.2.1 : ℚ)
        fat_grams := (macros.2.2 : ℚ)
        water_oz := (water_oz : ℚ) }

/-- Returns true exactly when the modelled call raised (any) ValidationError. -/
def raisesError (r : Except ValidationError NutritionProfile) : Bool :=
  match r with
  | .error _ => true
  | .ok _ => false

/-- logic.py: the advice dictionary returned by `get_nutrition_advice`. -/
structure NutritionAdvice where
  calories : String
  macronutrients : String
  hydration : String
  general : String
deriving DecidableEq

/-- logic.py: `get_nutrition_advice`; the dict starts with `general` empty and
the if/elif chain overwrites it for the internal goal vocabulary. -/
def get_nutrition_advice (profile : NutritionProfile) (goal : String) :
    NutritionAdvice :=
  { calories := "Your target daily calorie intake is " ++
      toString profile.target_calories ++ " calories. "
    macronutrients := "Aim for " ++ toString profile.protein_grams ++
      "g protein, " ++ toString profile.carbs_grams ++ "g carbs, and " ++
      toString profile.fat_grams ++ "g fat daily. "
    hydration := "Drink at least " ++ toString profile.water_oz ++
      "oz of water daily. "
    general :=
      if pyLower goal = "lose_weight" then
        "Focus on high-protein, nutrient-dense foods. Consider meal timing around workouts."
      else if pyLower goal = "gain_muscle" then
        "Prioritize protein intake and consider pre/post workout nutrition."
      else if pyLower goal = "maintain" then
        "Maintain a balanced diet with regular meal timing."
      else if pyLower goal = "improve_endurance" then
        "Focus on adequate carb intake for energy and proper hydration."
      else "" }


/-- The rounded value is at least the floor of the argument. -/
lemma floor_le_pyRound (q : ℚ) : ⌊q⌋ ≤ pyRound q := by
  unfold pyRound
  repeat' split
  all_goals omega

/-- The rounded value is at most the floor of the argument plus one. -/
lemma pyRound_le_floor_add_one (q : ℚ) : pyRound q ≤ ⌊q⌋ + 1 := by
  unfold pyRound
  repeat' split
  all_goals omega

/-- Round-half-to-even never moves a value by more than one half. -/
lemma pyRound_close (q : ℚ) :
    -(1/2) ≤ (pyRound q : ℚ) - q ∧ (pyRound q : ℚ) - q ≤ 1/2 := by
  have hq : (⌊q⌋ : ℚ) + Int.fract q = q := Int.floor_add_fract q
  have h0 : 0 ≤ Int.fract q := Int.fract_nonneg q
  have h1 : Int.fract q < 1 := Int.fract_lt_one q
  unfold pyRound
  repeat' split
  all_goals constructor
  all_goals push_cast
  all_goals linarith

/-- Rounding an integer returns that integer. -/
lemma pyRound_intCast (n : ℤ) : pyRound (n : ℚ) = n := by
  unfold pyRound
  simp [Int.fract_intCast]

/-- Round-half-to-even is monotone. -/
lemma pyRound_mono {x y : ℚ} (h : x ≤ y) : pyRound x ≤ pyRound y := by
  rcases lt_or_ge ⌊x⌋ ⌊y⌋ with hf | hf
  · have h1 := pyRound_le_floor_add_one x
    have h2 := floor_le_pyRound y
    omega
  · have hf' : ⌊x⌋ = ⌊y⌋ := le_antisymm (Int.floor_le_floor h) hf
    have hfr : Int.fract x ≤ Int.fract y := by
      have hx := Int.floor_add_fract x
      have hy := Int.floor_add_fract y
      have hc : ((⌊x⌋ : ℚ)) = (⌊y⌋ : ℚ) := by rw [hf']
      linarith
    unfold pyRound
    rw [hf']
    repeat' split
    all_goals first | omega | linarith

/-- The macro split leaves protein calories exact and rounds carbs (within 2
kcal) and fat (within 4.5 kcal) independently, so the reconstructed calorie
total sits within 6.5 kcal of the target. -/
lemma macroSum_close (T fc pcal : ℚ) :
    |pcal + (pyRound ((T - pcal - fc) / 4) : ℚ) * 4 +
      (pyRound (fc / 9) : ℚ) * 9 - T| ≤ 13/2 := by
  obtain ⟨h1a, h1b⟩ := pyRound_close ((T - pcal - fc) / 4)
  obtain ⟨h2a, h2b⟩ := pyRound_close (fc / 9)
  rw [abs_le]
  constructor <;> linarith

/-- Lowercasing fixes the key "male". -/
lemma pyLower_male : pyLower "male" = "male" := by decide

/-- Lowercasing fixes the key "female". -/
lemma pyLower_female : pyLower "female" = "female" := by decide

/-- Lowercasing fixes the key "sedentary". -/
lemma pyLower_sedentary : pyLower "sedentary" = "sedentary" := by decide

/-- Lowercasing fixes the key "light". -/
lemma pyLower_light : pyLower "light" = "light" := by decide

/-- Lowercasing fixes the key "moderate". -/
lemma pyLower_moderate : pyLower "moderate" = "moderate" := by decide

/-- Lowercasing fixes the key "active". -/
lemma pyLower_active : pyLower "active" = "active" := by decide

/-- Lowercasing fixes the key "very_active". -/
lemma pyLower_very_active : pyLower "very_active" = "very_active" := by decide

/-- Lowercasing fixes the key "maintain". -/
lemma pyLower_maintain : pyLower "maintain" = "maintain" := by decide

/-- Lowercasing fixes the key "lose_weight". -/
lemma pyLower_lose_weight : pyLower "lose_weight" = "lose_weight" := by decide

/-- Lowercasing fixes the key "gain_muscle". -/
lemma pyLower_gain_muscle : pyLower "gain_muscle" = "gain_muscle" := by decide

/-- Lowercasing fixes the key "improve_endurance". -/
lemma pyLower_improve_endurance :
    pyLower "improve_endurance" = "improve_endurance" := by decide

/-- Lowercasing fixes the key "weight_loss". -/
lemma pyLower_weight_loss : pyLower "weight_loss" = "weight_loss" := by decide

/-- Lowercasing fixes the key "maintenance". -/
lemma pyLower_maintenance : pyLower "maintenance" = "maintenance" := by decide

/-- Lowercasing fixes the key "muscle_gain". -/
lemma pyLower_muscle_gain : pyLower "muscle_gain" = "muscle_gain" := by decide

/-- Lowercasing fixes the key "general_health". -/
lemma pyLower_general_health :
    pyLower "general_health" = "general_health" := by decide

/-- Lowercasing fixes the string "cut". -/
lemma pyLower_cut : pyLower "cut" = "cut" := by decide

/-- The derived numeric fields of a profile, in declaration order. -/
def numericFields (p : NutritionProfile) : ℚ × ℚ × ℚ × ℚ × ℚ × ℚ × ℚ :=
  (p.bmr, p.tdee, p.target_calories, p.protein_grams, p.carbs_grams,
    p.fat_grams, p.water_oz)

/-- Table value: sedentary activity multiplier. -/
lemma am_sedentary : activityMultiplier "sedentary" = 1.2 := by
  simp [activityMultiplier, pyLower_sedentary]

/-- Table value: light activity multiplier. -/
lemma am_light : activityMultiplier "light" = 1.375 := by
  simp [activityMultiplier, pyLower_light]

/-- Table value: moderate activity multiplier. -/
lemma am_moderate : activityMultiplier "moderate" = 1.55 := by
  simp [activityMultiplier, pyLower_moderate]

/-- Table value: active activity multiplier. -/
lemma am_active : activityMultiplier "active" = 1.725 := by
  simp [activityMultiplier, pyLower_active]

/-- Table value: very_active activity multiplier. -/
lemma am_very_active : activityMultiplier "very_active" = 1.9 := by
  simp [activityMultiplier, pyLower_very_active]

/-- An unrecognized activity level falls back to the sedentary multiplier. -/
lemma am_default {l : String} (h : pyLower l ∉ activityKeys) :
    activityMultiplier l = 1.2 := by
  simp [activityKeys, ACTIVITY_LEVELS] at h
  simp [activityMultiplier, h.1, h.2.1, h.2.2.1, h.2.2.2.1, h.2.2.2.2]

/-- Table value: goal adjustment for lose_weight. -/
lemma ga_lose_weight : goalAdjustment "lose_weight" = 0.85 := by
  simp [goalAdjustment, pyLower_lose_weight]

/-- Table value: goal adjustment for maintain. -/
lemma ga_maintain : goalAdjustment "maintain" = 1 := by
  simp [goalAdjustment, pyLower_maintain]
  norm_num

/-- Table value: goal adjustment for gain_muscle. -/
lemma ga_gain_muscle : goalAdjustment "gain_muscle" = 1.1 := by
  simp [goalAdjustment, pyLower_gain_muscle]

/-- Table value: goal adjustment for improve_endurance. -/
lemma ga_improve_endurance : goalAdjustment "improve_endurance" = 1.05 := by
  simp [goalAdjustment, pyLower_improve_endurance]

/-- A goal outside the internal adjustment table falls back to 1.0. -/
lemma ga_default {g : String}
    (h : pyLower g ∉ ["lose_weight", "maintain", "gain_muscle", "improve_endurance"]) :
    goalAdjustment g = 1 := by
  simp at h
  simp [goalAdjustment, h.1, h.2.1, h.2.2.1, h.2.2.2]
  norm_num

/-- Table value: protein multiplier for maintain. -/
lemma pm_maintain : proteinMultiplier "maintain" = 1.8 := by
  simp [proteinMultiplier, pyLower_maintain]

/-- Table value: protein multiplier for lose_weight. -/
lemma pm_lose_weight : proteinMultiplier "lose_weight" = 2.2 := by
  simp [proteinMultiplier, pyLower_lose_weight]

/-- A goal outside the protein table falls back to 1.8 g per kg. -/
lemma pm_default {g : String}
    (h : pyLower g ∉ ["lose_weight", "maintain", "gain_muscle", "improve_endurance"]) :
    proteinMultiplier g = 1.8 := by
  simp at h
  simp [proteinMultiplier, h.1, h.2.1, h.2.2.1, h.2.2.2]

/-- Table value: fat percentage for maintain. -/
lemma fp_maintain : fatPercentage "maintain" = 0.30 := by
  simp [fatPercentage, pyLower_maintain]

/-- Table value: fat percentage for lose_weight. -/
lemma fp_lose_weight : fatPercentage "lose_weight" = 0.25 := by
  simp [fatPercentage, pyLower_lose_weight]

/-- A goal outside the fat table falls back to thirty percent. -/
lemma fp_default {g : String}
    (h : pyLower g ∉ ["lose_weight", "maintain", "gain_muscle", "improve_endurance"]) :
    fatPercentage g = 0.30 := by
  simp at h
  simp [fatPercentage, h.1, h.2.1, h.2.2.1, h.2.2.2]

/-- Table value: moderate water multiplier. -/
lemma wm_moderate : waterMultiplier "moderate" = 0.6 := by
  simp [waterMultiplier, pyLower_moderate]

/-- Concrete evaluation: BMR of the running scenario. -/
lemma bmr_ex : calculate_bmr 180 70 30 "male" = 1783 := by
  rw [calculate_bmr]
  rw [if_pos pyLower_male]
  norm_num [pyRound, Int.fract]

/-- Concrete evaluation: TDEE of the running scenario. -/
lemma tdee_ex : calculate_tdee ((1783 : ℤ) : ℚ) "moderate" = 2764 := by
  rw [calculate_tdee, am_moderate]
  norm_num [pyRound, Int.fract]

/-- Concrete evaluation: target calories of the running scenario under the
canonical goal string. -/
lemma target_ex :
    calculate_target_calories ((2764 : ℤ) : ℚ) "maintenance" = 2764 := by
  rw [calculate_target_calories, ga_default (by decide)]
  norm_num [pyRound, Int.fract]

/-- Concrete evaluation: macro split of the running scenario under the
canonical goal string (which falls back to the default multipliers). -/
lemma macro_ex :
    calculate_macronutrients ((2764 : ℤ) : ℚ) "maintenance" 180 = (147, 337, 92) := by
  rw [calculate_macronutrients, pm_default (by decide), fp_default (by decide)]
  norm_num [pyRound, Int.fract]

/-- Concrete evaluation: water needs of the running scenario. -/
lemma water_ex : calculate_water_needs 180 "moderate" = 108 := by
  rw [calculate_water_needs, wm_moderate]
  norm_num [pyRound, Int.fract]

/-- The profile produced by the running scenario through the orchestrator. -/
def profileEx : NutritionProfile :=
  { weight_lbs := 180
    height_inches := 70
    age := 30
    sex := "male"
    activity_level := "moderate"
    bmr := 1783
    tdee := 2764
    target_calories := 2764
    protein_grams := 147
    carbs_grams := 337
    fat_grams := 92
    water_oz := 108 }

/-- Concrete evaluation of the full orchestrator on the running scenario. -/
lemma profile_eval :
    calculate_nutrition_profile 180 70 30 "male" "moderate" "maintenance" =
      Except.ok profileEx := by
  rw [calculate_nutrition_profile]
  rw [if_neg (by norm_num : ¬¬((180:ℚ) > 0 ∧ (70:ℚ) > 0 ∧ (30:ℤ) > 0))]
  rw [if_neg (by decide : ¬¬(pyLower "male" ∈ ["male", "female"]))]
  rw [if_neg (by decide : ¬¬(pyLower "moderate" ∈ activityKeys))]
  rw [if_neg (by decide : ¬¬(pyLower "maintenance" ∈ goalKeys))]
  simp only [bmr_ex, tdee_ex, target_ex, macro_ex, water_ex, profileEx]
  norm_num [NutritionProfile.mk.injEq]

/-- C7: on weight_lbs=180, height_inches=70, age=30, sex male, moderate
activity and goal maintain, the chained calculators produce BMR 1783,
TDEE 2764, target calories 2764, macros (147 g protein, 337 g carbs,
92 g fat) and 108 oz water. -/
theorem c7_concrete_scenario :
    calculate_bmr 180 70 30 "male" = 1783 ∧
    calculate_tdee 1783 "moderate" = 2764 ∧
    calculate_target_calories 2764 "maintain" = 2764 ∧
    calculate_macronutrients 2764 "maintain" 180 = (147, 337, 92) ∧
    calculate_water_needs 180 "moderate" = 108 := by
  refine ⟨bmr_ex, ?_, ?_, ?_, water_ex⟩
  · rw [calculate_tdee, am_moderate]
    norm_num [pyRound, Int.fract]
  · rw [calculate_target_calories, ga_maintain]
    norm_num [pyRound, Int.fract]
  · rw [calculate_macronutrients, pm_maintain, fp_maintain]
    norm_num [pyRound, Int.fract]

/-- C5: for every input, calculate_bmr rounds the Mifflin-St Jeor value with
weight converted at 0.453592 kg per lb and height at 2.54 cm per inch,
using the +5 male constant exactly when the lowercased sex equals "male"
and the −161 female constant for every other string, with no error. -/
theorem c5_bmr_formula (w h : ℚ) (a : ℤ) (sex : String) :
    calculate_bmr w h a sex =
      if pyLower sex = "male" then
        pyRound (10 * (w * (453592 / 1000000 : ℚ)) +
          (25 / 4 : ℚ) * (h * (254 / 100 : ℚ)) - 5 * (a : ℚ) + 5)
      else
        pyRound (10 * (w * (453592 / 1000000 : ℚ)) +
          (25 / 4 : ℚ) * (h * (254 / 100 : ℚ)) - 5 * (a : ℚ) - 161) := by
  rw [calculate_bmr]
  split <;> (congr 1; norm_num)

/-- C6: calculate_tdee multiplies by the case-insensitively matched activity
multiplier (sedentary 1.2, light 1.375, moderate 1.55, active 1.725,
very_active 1.9), defaults any unrecognized level to 1.2 without failing,
and in particular maps sedentary to bmr×1.2 and very_active to bmr×1.9. -/
theorem c6_tdee_multipliers (bmr : ℚ) (lvl g1 g2 g3 g4 g5 : String)
    (hlvl : pyLower lvl ∉ activityKeys)
    (h1 : pyLower g1 = "sedentary") (h2 : pyLower g2 = "light")
    (h3 : pyLower g3 = "moderate") (h4 : pyLower g4 = "active")
    (h5 : pyLower g5 = "very_active") :
    calculate_tdee bmr g1 = pyRound (bmr * 1.2) ∧
    calculate_tdee bmr g2 = pyRound (bmr * 1.375) ∧
    calculate_tdee bmr g3 = pyRound (bmr * 1.55) ∧
    calculate_tdee bmr g4 = pyRound (bmr * 1.725) ∧
    calculate_tdee bmr g5 = pyRound (bmr * 1.9) ∧
    calculate_tdee bmr lvl = pyRound (bmr * 1.2) ∧
    calculate_tdee bmr "sedentary" = pyRound (bmr * 1.2) ∧
    calculate_tdee bmr "very_active" = pyRound (bmr * 1.9) := by
  refine ⟨?_, ?_, ?_, ?_, ?_, ?_, ?_, ?_⟩
  · simp [calculate_tdee, activityMultiplier, h1]
  · simp [calculate_tdee, activityMultiplier, h2]
  · simp [calculate_tdee, activityMultiplier, h3]
  · simp [calculate_tdee, activityMultiplier, h4]
  · simp [calculate_tdee, activityMultiplier, h5]
  · rw [calculate_tdee, am_default hlvl]
  · rw [calculate_tdee, am_sedentary]
  · rw [calculate_tdee, am_very_active]

/-- Witness for C6 at bmr 1783 with cased variants of every key and the
unrecognized level "cardio". -/
theorem c6_tdee_multipliers_witness :
    calculate_tdee 1783 "SEDENTARY" = pyRound (1783 * 1.2) ∧
    calculate_tdee 1783 "Light" = pyRound (1783 * 1.375) ∧
    calculate_tdee 1783 "MODERATE" = pyRound (1783 * 1.55) ∧
    calculate_tdee 1783 "Active" = pyRound (1783 * 1.725) ∧
    calculate_tdee 1783 "VERY_ACTIVE" = pyRound (1783 * 1.9) ∧
    calculate_tdee 1783 "cardio" = pyRound (1783 * 1.2) ∧
    calculate_tdee 1783 "sedentary" = pyRound (1783 * 1.2) ∧
    calculate_tdee 1783 "very_active" = pyRound (1783 * 1.9) :=
  c6_tdee_multipliers 1783 "cardio" "SEDENTARY" "Light" "MODERATE" "Active"
    "VERY_ACTIVE" (by decide) (by decide) (by decide) (by decide) (by decide)
    (by decide)

/-- C2 counterexample: at target 2718, goal lose_weight and weight 180 lb the
macro split is (180, 330, 76), whose calorie total 2724 misses the target
by 6 kcal, outside the claimed ±2 kcal tolerance. -/
theorem c2_counterexample :
    calculate_macronutrients 2718 "lose_weight" 180 = (180, 330, 76) ∧
    ¬(|(180 : ℚ) * 4 + (330 : ℚ) * 4 + (76 : ℚ) * 9 - 2718| ≤ 2) := by
  constructor
  · rw [calculate_macronutrients, pm_lose_weight, fp_lose_weight]
    norm_num [pyRound, Int.fract]
  · rw [abs_le]
    norm_num

/-- C2 amended: for every target, goal and weight the reconstructed calorie
total protein×4 + carbs×4 + fat×9 lies within 6.5 kcal of the target
(protein calories enter the remainder exactly; rounding carbs costs at most
2 kcal and rounding fat at most 4.5 kcal). -/
theorem c2_macro_calorie_bound (T w : ℚ) (goal : String) :
    |((calculate_macronutrients T goal w).1 : ℚ) * 4 +
      ((calculate_macronutrients T goal w).2.1 : ℚ) * 4 +
      ((calculate_macronutrients T goal w).2.2 : ℚ) * 9 - T| ≤ 13/2 := by
  simp only [calculate_macronutrients]
  push_cast
  exact macroSum_close T (T * fatPercentage goal)
    ((pyRound (w * 0.453592 * proteinMultiplier goal) : ℚ) * 4)

/-- C4: the orchestrator raises ValidationError exactly when weight, height or
age is non-positive, the lowercased sex is outside male/female, the
lowercased activity level is outside the five keys, or the lowercased goal
is outside the canonical GOALS keys; on every other input it returns a
profile. -/
theorem c4_validation_iff (w h : ℚ) (a : ℤ) (sex act goal : String) :
    raisesError (calculate_nutrition_profile w h a sex act goal) = true ↔
      (w ≤ 0 ∨ h ≤ 0 ∨ a ≤ 0 ∨ pyLower sex ∉ ["male", "female"] ∨
        pyLower act ∉ activityKeys ∨ pyLower goal ∉ goalKeys) := by
  have e1 : (¬(w > 0 ∧ h > 0 ∧ a > 0)) ↔ (w ≤ 0 ∨ h ≤ 0 ∨ a ≤ 0) := by
    simp only [not_and_or, not_lt]
  rw [calculate_nutrition_profile]
  split
  · rename_i hc1
    simp only [raisesError, true_iff]
    rw [e1] at hc1
    tauto
  · rename_i hc1
    split
    · rename_i hc2
      simp only [raisesError, true_iff]
      tauto
    · rename_i hc2
      split
      · rename_i hc3
        simp only [raisesError, true_iff]
        tauto
      · rename_i hc3
        split
        · rename_i hc4
          simp only [raisesError, true_iff]
          tauto
        · rename_i hc4
          simp only [raisesError, Bool.false_eq_true, false_iff]
          rw [not_not] at hc1 hc2 hc3 hc4
          intro hd
          rcases hd with hx | hx | hx | hx | hx | hx
          · exact absurd hc1.1 (not_lt.mpr hx)
          · exact absurd hc1.2.1 (not_lt.mpr hx)
          · exact absurd hc1.2.2 (not_lt.mpr hx)
          · exact hx hc2
          · exact hx hc3
          · exact hx hc4

/-- C8: holding the other arguments fixed over positive inputs, calculate_bmr
is monotonically increasing in weight and in height and monotonically
decreasing in age. -/
theorem c8_bmr_monotonicity (w w' h h' : ℚ) (a a' : ℤ) (sex : String)
    (hw0 : 0 < w) (hww : w ≤ w') (hh0 : 0 < h) (hhh : h ≤ h')
    (ha0 : 0 < a) (haa : a ≤ a') :
    calculate_bmr w h a sex ≤ calculate_bmr w' h a sex ∧
    calculate_bmr w h a sex ≤ calculate_bmr w h' a sex ∧
    calculate_bmr w h a' sex ≤ calculate_bmr w h a sex := by
  have hac : (a : ℚ) ≤ (a' : ℚ) := by exact_mod_cast haa
  refine ⟨?_, ?_, ?_⟩ <;> simp only [calculate_bmr] <;> split <;>
    (apply pyRound_mono; linarith)

/-- Witness for C8 at weight 180→181, height 70→71, age 30→31, sex male. -/
theorem c8_bmr_monotonicity_witness :
    calculate_bmr 180 70 30 "male" ≤ calculate_bmr 181 70 30 "male" ∧
    calculate_bmr 180 70 30 "male" ≤ calculate_bmr 180 71 30 "male" ∧
    calculate_bmr 180 70 31 "male" ≤ calculate_bmr 180 70 30 "male" :=
  c8_bmr_monotonicity 180 181 70 71 30 31 "male" (by norm_num) (by norm_num)
    (by norm_num) (by norm_num) (by norm_num) (by norm_num)

/-- C3 counterexample: age 121 with otherwise valid inputs does not raise —
the orchestrator only checks that age is positive. -/
theorem c3_counterexample :
    raisesError
      (calculate_nutrition_profile 180 70 121 "male" "moderate" "maintenance") =
      false := by
  rw [calculate_nutrition_profile]
  rw [if_neg (by norm_num : ¬¬((180:ℚ) > 0 ∧ (70:ℚ) > 0 ∧ (121:ℤ) > 0))]
  rw [if_neg (by decide : ¬¬(pyLower "male" ∈ ["male", "female"]))]
  rw [if_neg (by decide : ¬¬(pyLower "moderate" ∈ activityKeys))]
  rw [if_neg (by decide : ¬¬(pyLower "maintenance" ∈ goalKeys))]
  rfl

/-- C3 amended: with otherwise-valid inputs the orchestrator accepts age 13,
age 120 and also age 121 (only positivity of age is validated), and raises
ValidationError for age 0. -/
theorem c3_age_bounds (w h : ℚ) (sex act goal : String)
    (hw : 0 < w) (hh : 0 < h)
    (hsex : pyLower sex ∈ ["male", "female"])
    (hact : pyLower act ∈ activityKeys)
    (hgoal : pyLower goal ∈ goalKeys) :
    raisesError (calculate_nutrition_profile w h 13 sex act goal) = false ∧
    raisesError (calculate_nutrition_profile w h 120 sex act goal) = false ∧
    raisesError (calculate_nutrition_profile w h 121 sex act goal) = false ∧
    raisesError (calculate_nutrition_profile w h 0 sex act goal) = true := by
  have mk : ∀ n : ℤ, 0 < n →
      raisesError (calculate_nutrition_profile w h n sex act goal) = false := by
    intro n hn
    rw [calculate_nutrition_profile]
    rw [if_neg (not_not_intro ⟨hw, hh, hn⟩)]
    rw [if_neg (not_not_intro hsex)]
    rw [if_neg (not_not_intro hact)]
    rw [if_neg (not_not_intro hgoal)]
    rfl
  refine ⟨mk 13 (by norm_num), mk 120 (by norm_num), mk 121 (by norm_num), ?_⟩
  rw [calculate_nutrition_profile]
  rw [if_pos (fun hx => absurd hx.2.2 (by norm_num))]
  rfl

/-- Witness for C3 at weight 180, height 70, sex male, moderate activity and
goal maintenance. -/
theorem c3_age_bounds_witness :
    raisesError
        (calculate_nutrition_profile 180 70 13 "male" "moderate" "maintenance") =
      false ∧
    raisesError
        (calculate_nutrition_profile 180 70 120 "male" "moderate" "maintenance") =
      false ∧
    raisesError
        (calculate_nutrition_profile 180 70 121 "male" "moderate" "maintenance") =
      false ∧
    raisesError
        (calculate_nutrition_profile 180 70 0 "male" "moderate" "maintenance") =
      true :=
  c3_age_bounds 180 70 "male" "moderate" "maintenance" (by norm_num)
    (by norm_num) (by decide) (by decide) (by decide)

/-- C1: calculate_target_calories applies the internal adjustments
(lose_weight 0.85, maintain 1.0, gain_muscle 1.1, improve_endurance 1.05,
matched on the lowercased goal) and defaults every other goal to 1.0; the
canonical validated goals and the string "cut" therefore all return
round(tdee×1.0) with no error, every successful orchestrator call has
target_calories equal to its tdee, and the orchestrator always raises on
goal "cut". -/
theorem c1_goal_adjustments (tdee : ℚ) (goal : String) (w h : ℚ) (a : ℤ)
    (sex act : String) (p : NutritionProfile) (g1 g2 g3 g4 : String)
    (h1 : pyLower g1 = "lose_weight") (h2 : pyLower g2 = "maintain")
    (h3 : pyLower g3 = "gain_muscle") (h4 : pyLower g4 = "improve_endurance")
    (hgoal : pyLower goal ∉
      ["lose_weight", "maintain", "gain_muscle", "improve_endurance"])
    (hok : calculate_nutrition_profile w h a sex act goal = Except.ok p) :
    calculate_target_calories tdee g1 = pyRound (tdee * 0.85) ∧
    calculate_target_calories tdee g2 = pyRound (tdee * 1.0) ∧
    calculate_target_calories tdee g3 = pyRound (tdee * 1.1) ∧
    calculate_target_calories tdee g4 = pyRound (tdee * 1.05) ∧
    calculate_target_calories tdee goal = pyRound (tdee * 1.0) ∧
    calculate_target_calories tdee "weight_loss" = pyRound (tdee * 1.0) ∧
    calculate_target_calories tdee "maintenance" = pyRound (tdee * 1.0) ∧
    calculate_target_calories tdee "muscle_gain" = pyRound (tdee * 1.0) ∧
    calculate_target_calories tdee "general_health" = pyRound (tdee * 1.0) ∧
    calculate_target_calories tdee "cut" = pyRound (tdee * 1.0) ∧
    p.target_calories = p.tdee ∧
    raisesError (calculate_nutrition_profile w h a sex act "cut") = true := by
  refine ⟨?_, ?_, ?_, ?_, ?_, ?_, ?_, ?_, ?_, ?_, ?_, ?_⟩
  · simp [calculate_target_calories, goalAdjustment, h1]
  · simp [calculate_target_calories, goalAdjustment, h2]
  · simp [calculate_target_calories, goalAdjustment, h3]
  · simp [calculate_target_calories, goalAdjustment, h4]
  · rw [calculate_target_calories, ga_default hgoal]
    congr 1
    norm_num
  · rw [calculate_target_calories, ga_default (by decide)]
    congr 1
    norm_num
  · rw [calculate_target_calories, ga_default (by decide)]
    congr 1
    norm_num
  · rw [calculate_target_calories, ga_default (by decide)]
    congr 1
    norm_num
  · rw [calculate_target_calories, ga_default (by decide)]
    congr 1
    norm_num
  · rw [calculate_target_calories, ga_default (by decide)]
    congr 1
    norm_num
  · rw [calculate_nutrition_profile] at hok
    split at hok
    · exact absurd hok (by simp)
    · split at hok
      · exact absurd hok (by simp)
      · split at hok
        · exact absurd hok (by simp)
        · split at hok
          · exact absurd hok (by simp)
          · injection hok with hp
            subst hp
            show ((calculate_target_calories _ goal : ℤ) : ℚ) = _
            rw [calculate_target_calories, ga_default hgoal, mul_one,
              pyRound_intCast]
  · rw [calculate_nutrition_profile]
    split
    · rfl
    · split
      · rfl
      · split
        · rfl
        · rw [if_pos (by decide : ¬(pyLower "cut" ∈ goalKeys))]
          rfl

/-- Witness for C1: tdee 2764, cased variants of the internal keys, the
canonical goal maintenance with the running scenario, and the goal "cut". -/
theorem c1_goal_adjustments_witness :
    calculate_target_calories 2764 "LOSE_WEIGHT" = pyRound (2764 * 0.85) ∧
    calculate_target_calories 2764 "Maintain" = pyRound (2764 * 1.0) ∧
    calculate_target_calories 2764 "GAIN_MUSCLE" = pyRound (2764 * 1.1) ∧
    calculate_target_calories 2764 "Improve_Endurance" = pyRound (2764 * 1.05) ∧
    calculate_target_calories 2764 "maintenance" = pyRound (2764 * 1.0) ∧
    calculate_target_calories 2764 "weight_loss" = pyRound (2764 * 1.0) ∧
    calculate_target_calories 2764 "maintenance" = pyRound (2764 * 1.0) ∧
    calculate_target_calories 2764 "muscle_gain" = pyRound (2764 * 1.0) ∧
    calculate_target_calories 2764 "general_health" = pyRound (2764 * 1.0) ∧
    calculate_target_calories 2764 "cut" = pyRound (2764 * 1.0) ∧
    profileEx.target_calories = profileEx.tdee ∧
    raisesError
        (calculate_nutrition_profile 180 70 30 "male" "moderate" "cut") =
      true :=
  c1_goal_adjustments 2764 "maintenance" 180 70 30 "male" "moderate" profileEx
    "LOSE_WEIGHT" "Maintain" "GAIN_MUSCLE" "Improve_Endurance" (by decide)
    (by decide) (by decide) (by decide) (by decide) profile_eval

/-- C9: every calculator treats its string arguments case-insensitively —
replacing sex, activity level or goal by any string with the same
lowercasing leaves each function value unchanged, leaves unchanged whether
the orchestrator raises, and leaves all derived numeric profile fields
unchanged. -/
theorem c9_case_insensitivity (w h b T : ℚ) (a : ℤ)
    (sex1 sex2 act1 act2 goal1 goal2 : String)
    (hsex : pyLower sex1 = pyLower sex2) (hact : pyLower act1 = pyLower act2)
    (hgoal : pyLower goal1 = pyLower goal2) :
    calculate_bmr w h a sex1 = calculate_bmr w h a sex2 ∧
    calculate_tdee b act1 = calculate_tdee b act2 ∧
    calculate_target_calories T goal1 = calculate_target_calories T goal2 ∧
    calculate_macronutrients T goal1 w = calculate_macronutrients T goal2 w ∧
    calculate_water_needs w act1 = calculate_water_needs w act2 ∧
    raisesError (calculate_nutrition_profile w h a sex1 act1 goal1) =
      raisesError (calculate_nutrition_profile w h a sex2 act2 goal2) ∧
    (calculate_nutrition_profile w h a sex1 act1 goal1).map numericFields =
      (calculate_nutrition_profile w h a sex2 act2 goal2).map numericFields := by
  have hbmr : calculate_bmr w h a sex1 = calculate_bmr w h a sex2 := by
    simp only [calculate_bmr, hsex]
  have htd : ∀ x : ℚ, calculate_tdee x act1 = calculate_tdee x act2 := by
    intro x
    simp only [calculate_tdee, activityMultiplier, hact]
  have htc : ∀ x : ℚ,
      calculate_target_calories x goal1 = calculate_target_calories x goal2 := by
    intro x
    simp only [calculate_target_calories, goalAdjustment, hgoal]
  have hmac : ∀ x y : ℚ,
      calculate_macronutrients x goal1 y = calculate_macronutrients x goal2 y := by
    intro x y
    simp only [calculate_macronutrients, proteinMultiplier, fatPercentage, hgoal]
  have hwat : calculate_water_needs w act1 = calculate_water_needs w act2 := by
    simp only [calculate_water_needs, waterMultiplier, hact]
  refine ⟨hbmr, htd b, htc T, hmac T w, hwat, ?_, ?_⟩ <;>
    (simp only [calculate_nutrition_profile, hsex, hact, hgoal, hbmr, htd,
      htc, hmac, hwat]
     by_cases c1 : (w > 0 ∧ h > 0 ∧ a > 0) <;>
       by_cases c2 : (pyLower sex2 ∈ ["male", "female"]) <;>
         by_cases c3 : (pyLower act2 ∈ activityKeys) <;>
           by_cases c4 : (pyLower goal2 ∈ goalKeys) <;>
             simp [c1, c2, c3, c4, raisesError, Except.map, numericFields])

/-- Witness for C9: cased variants MALE/male, Moderate/moderate and
MAINTENANCE/maintenance on the running scenario. -/
theorem c9_case_insensitivity_witness :
    calculate_bmr 180 70 30 "MALE" = calculate_bmr 180 70 30 "male" ∧
    calculate_tdee 1783 "Moderate" = calculate_tdee 1783 "moderate" ∧
    calculate_target_calories 2764 "MAINTENANCE" =
      calculate_target_calories 2764 "maintenance" ∧
    calculate_macronutrients 2764 "MAINTENANCE" 180 =
      calculate_macronutrients 2764 "maintenance" 180 ∧
    calculate_water_needs 180 "Moderate" = calculate_water_needs 180 "moderate" ∧
    raisesError
        (calculate_nutrition_profile 180 70 30 "MALE" "Moderate" "MAINTENANCE") =
      raisesError
        (calculate_nutrition_profile 180 70 30 "male" "moderate" "maintenance") ∧
    (calculate_nutrition_profile 180 70 30 "MALE" "Moderate" "MAINTENANCE").map
        numericFields =
      (calculate_nutrition_profile 180 70 30 "male" "moderate" "maintenance").map
        numericFields :=
  c9_case_insensitivity 180 70 1783 2764 30 "MALE" "male" "Moderate" "moderate"
    "MAINTENANCE" "maintenance" (by decide) (by decide) (by decide)

/-- C10: for every profile and every goal from the canonical validated GOALS
vocabulary, the advice dictionary has an empty general entry — the
goal-specific branches only match the internal vocabulary. -/
theorem c10_general_advice_empty (p : NutritionProfile) (goal : String)
    (hgoal : goal ∈ goalKeys) :
    (get_nutrition_advice p goal).general = "" := by
  simp only [goalKeys, GOALS, List.map, List.mem_cons, List.not_mem_nil,
    or_false] at hgoal
  rcases hgoal with h | h | h | h <;> subst h <;>
    simp [get_nutrition_advice, pyLower_weight_loss, pyLower_maintenance,
      pyLower_muscle_gain, pyLower_general_health]

/-- Witness for C10 at the running-scenario profile and goal weight_loss. -/
theorem c10_general_advice_empty_witness :
    (get_nutrition_advice profileEx "weight_loss").general = "" :=
  c10_general_advice_empty profileEx "weight_loss" (by decide)
